import Mathlib

/-!
Verification of the token-acquisition core of `plugins/modules/get_token.py`
from the `pytoccaz/ansible_keycloak` collection.

The Python function `get_token(module_params)` validates the URL scheme,
builds the token endpoint from the template `URL_TOKEN` via `str.format`,
builds a form payload (dropping `None` values), performs one `open_url`
POST, parses the body with `json.loads`, and extracts `access_token`.

The embedding below mirrors that code.  The network and JSON-parsing
effects are supplied as an explicit argument (`NetOutcome`), matching what
the `try` block observes: either a `ValueError` (JSON parse failure), any
other exception (transport failure), or a parsed JSON value.  The function
additionally records the list of issued requests, so that claims about
"no network call" and "at most one call" are statable.
-/

namespace KeycloakGetToken

/-- JSON values as produced by Python's `json.loads`.  An object is
represented by its item list; `json.loads` builds a `dict`, so keys are
unique and lookup is association-list lookup. -/
inductive JsonValue where
  | null
  | bool (b : Bool)
  | num (n : Int)
  | str (s : String)
  | arr (elems : List JsonValue)
  | obj (fields : List (String × JsonValue))

/-- Parameters as seen by `get_token` via `module_params.get(...)`:
`auth_keycloak_url` is required, the other string options may be `None`.
The options with declared defaults (`validate_certs`, `connection_timeout`,
`http_agent`) are already resolved by `AnsibleModule` when `get_token`
runs. -/
structure ModuleParams where
  auth_keycloak_url : String
  auth_client_id : Option String
  auth_realm : Option String
  auth_username : Option String
  auth_password : Option String
  validate_certs : Bool
  connection_timeout : Int
  http_agent : String

/-- Raw task arguments before `AnsibleModule` applies the defaults of
`keycloak_argument_spec()`: every option other than the required
`auth_keycloak_url` may be absent. -/
structure RawParams where
  auth_keycloak_url : String
  auth_client_id : Option String
  auth_realm : Option String
  auth_username : Option String
  auth_password : Option String
  validate_certs : Option Bool
  connection_timeout : Option Int
  http_agent : Option String

/-- `AnsibleModule` resolving the defaults declared in
`keycloak_argument_spec()`: `auth_client_id` defaults to `admin-cli`,
`validate_certs` to `True`, `connection_timeout` to `10`, `http_agent` to
`Ansible`; options without a declared default stay as given. -/
def applyArgumentSpec (raw : RawParams) : ModuleParams :=
  { auth_keycloak_url := raw.auth_keycloak_url
    auth_client_id := some (raw.auth_client_id.getD "admin-cli")
    auth_realm := raw.auth_realm
    auth_username := raw.auth_username
    auth_password := raw.auth_password
    validate_certs := raw.validate_certs.getD true
    connection_timeout := raw.connection_timeout.getD 10
    http_agent := raw.http_agent.getD "Ansible" }

/-- Python `str.lower()` (the scheme check only involves ASCII letters,
where Python and `Char.toLower` agree). -/
def pyLower (s : String) : String :=
  String.mk (s.data.map Char.toLower)

/-- Python `str.startswith(pre)` on a single candidate. -/
def pyStartsWith (pre s : String) : Bool :=
  pre.data.isPrefixOf s.data

/-- The test `base_url.lower().startswith(('http', 'https'))` from line 155:
`startswith` with a tuple succeeds if any of the candidates matches. -/
def schemeOk (base_url : String) : Bool :=
  pyStartsWith "http" (pyLower base_url) || pyStartsWith "https" (pyLower base_url)

/-- Python `str()` of an optional string, as applied by `str.format` to the
interpolated value: `None` prints as the four characters `None`. -/
def pyStrOfOpt : Option String → String
  | none => "None"
  | some s => s

/-- Worker for `str.format`: walks the template; outside braces characters
are copied; `\x7b` starts a replacement field whose name is accumulated
until `\x7d`, then the named argument is substituted (a missing name or an
unclosed field is an error, as in Python). -/
def pyFormatGo (args : List (String × String)) :
    Bool → List Char → List Char → Option (List Char)
  | false, _, [] => some []
  | true, _, [] => none
  | false, acc, c :: rest =>
      if c = '{' then pyFormatGo args true [] rest
      else (pyFormatGo args false acc rest).map (fun t => c :: t)
  | true, nameRev, c :: rest =>
      if c = '}' then
        match args.lookup (String.mk nameRev.reverse) with
        | some v => (pyFormatGo args false [] rest).map (fun t => v.data ++ t)
        | none => none
      else pyFormatGo args true (c :: nameRev) rest

/-- Python `template.format(**args)` restricted to plain named fields,
which is all `URL_TOKEN` uses. -/
def pyFormat (template : String) (args : List (String × String)) : Option String :=
  (pyFormatGo args false [] template.data).map String.mk

/-- The endpoint template, line 121 of the source. -/
def URL_TOKEN : String := "{url}/realms/{realm}/protocol/openid-connect/token"

/-- Line 166: `URL_TOKEN.format(url=base_url, realm=auth_realm)`. Both
names occur in the template, so formatting always succeeds; the `getD`
default is never reached. -/
def authUrl (p : ModuleParams) : String :=
  (pyFormat URL_TOKEN
    [("url", p.auth_keycloak_url), ("realm", pyStrOfOpt p.auth_realm)]).getD ""

/-- Lines 167-172: the `temp_payload` dict, in insertion order. -/
def temp_payload (p : ModuleParams) : List (String × Option String) :=
  [("grant_type", some "password"),
   ("client_id", p.auth_client_id),
   ("username", p.auth_username),
   ("password", p.auth_password)]

/-- Lines 174-175: keep only the items whose value is not `None`. -/
def payload (p : ModuleParams) : List (String × String) :=
  (temp_payload p).filterMap (fun kv => kv.2.map (fun v => (kv.1, v)))

/-- One outbound `open_url` request as issued on lines 177-179. -/
structure Request where
  url : String
  method : String
  validate_certs : Bool
  http_agent : String
  timeout : Int
  formData : List (String × String)

/-- What the `try` block of lines 176-186 observes from
`json.loads(to_native(open_url(...).read()))`: a `ValueError` raised by
`json.loads` (carrying `str(e)`), any other exception raised along the way
(transport failure, carrying `str(e)`), or the parsed JSON value. -/
inductive NetOutcome where
  | valueError (detail : String)
  | otherError (detail : String)
  | json (v : JsonValue)

/-- Result of `get_token`: the returned token, a raised `KeycloakError`
with its message, or an uncaught `TypeError` (subscripting a non-`dict`
JSON value with a string key on line 189). -/
inductive GetTokenResult where
  | ok (token : JsonValue)
  | keycloakError (msg : String)
  | typeError

/-- The message of a raised `KeycloakError`, if any. -/
def errorMessage : GetTokenResult → Option String
  | GetTokenResult.keycloakError m => some m
  | _ => none

/-- Lines 147-193, `get_token(module_params)`.  `net` supplies the outcome
of the single `open_url` + `json.loads` step for a given request; the
second component of the result lists the requests issued, in order. -/
def get_token (p : ModuleParams) (net : Request → NetOutcome) :
    GetTokenResult × List Request :=
  if schemeOk p.auth_keycloak_url = false then
    (GetTokenResult.keycloakError
      ("auth_url '" ++ p.auth_keycloak_url ++
        "' should either start with 'http' or 'https'."), [])
  else
    let auth_url := authUrl p
    let req : Request :=
      { url := auth_url
        method := "POST"
        validate_certs := p.validate_certs
        http_agent := p.http_agent
        timeout := p.connection_timeout
        formData := payload p }
    let res : GetTokenResult :=
      match net req with
      | NetOutcome.valueError e =>
          GetTokenResult.keycloakError
            ("API returned invalid JSON when trying to obtain access token from "
              ++ auth_url ++ ": " ++ e)
      | NetOutcome.otherError e =>
          GetTokenResult.keycloakError
            ("Could not obtain access token from " ++ auth_url ++ ": " ++ e)
      | NetOutcome.json v =>
          match v with
          | JsonValue.obj fields =>
              match fields.lookup "access_token" with
              | some t => GetTokenResult.ok t
              | none =>
                  GetTokenResult.keycloakError
                    ("Could not obtain access token from " ++ auth_url)
          | _ => GetTokenResult.typeError
    (res, [req])

/-- A well-formed configuration as in the module documentation's example
task, used to instantiate the theorems below at concrete inputs. -/
def exampleParams : ModuleParams :=
  { auth_keycloak_url := "https://auth.example.com"
    auth_client_id := some "admin-cli"
    auth_realm := some "master"
    auth_username := some "admin"
    auth_password := some "secret"
    validate_certs := true
    connection_timeout := 10
    http_agent := "Ansible" }

/-- The example configuration with `auth_realm` left unset. -/
def noRealmParams : ModuleParams :=
  { exampleParams with auth_realm := none }

/-- A configuration whose URL has a non-http scheme. -/
def ftpParams : ModuleParams :=
  { exampleParams with auth_keycloak_url := "ftp://auth.example.com" }

/-- A configuration whose URL starts with `http` as raw characters but is
not an http or https URL. -/
def httpfooParams : ModuleParams :=
  { exampleParams with auth_keycloak_url := "httpfoo://host" }

/-- Formatting `URL_TOKEN` with both named arguments supplied interpolates
them verbatim into the template. -/
theorem pyFormat_URL_TOKEN (u r : String) :
    pyFormat URL_TOKEN [("url", u), ("realm", r)] =
      some (u ++ "/realms/" ++ r ++ "/protocol/openid-connect/token") := by
  obtain ⟨ud⟩ := u
  obtain ⟨rd⟩ := r
  simp [pyFormat, URL_TOKEN, pyFormatGo, String.append, List.lookup, String.ext_iff]

/-- The endpoint, unfolded: base URL and the printed realm are interpolated
verbatim around the fixed path segments. -/
theorem authUrl_eq (p : ModuleParams) :
    authUrl p = p.auth_keycloak_url ++ "/realms/" ++ pyStrOfOpt p.auth_realm
      ++ "/protocol/openid-connect/token" := by
  simp [authUrl, pyFormat_URL_TOKEN]

/-- A list that extends a given one on the right keeps its prefixes. -/
theorem isPrefixOf_of_append (p q l : List Char)
    (h : (p ++ q).isPrefixOf l = true) : p.isPrefixOf l = true := by
  rw [List.isPrefixOf_iff_prefix] at h ⊢
  exact List.IsPrefix.trans (List.prefix_append p q) h

/-- A string starting with `https` also starts with `http`. -/
theorem pyStartsWith_https_imp_http (s : String)
    (h : pyStartsWith "https" s = true) : pyStartsWith "http" s = true := by
  have hd : String.data "https" = String.data "http" ++ ['s'] := by decide
  unfold pyStartsWith at h ⊢
  rw [hd] at h
  exact isPrefixOf_of_append _ _ _ h

/-- C1: for every parsed-JSON response body that is an object, if it
contains the field `access_token` then `get_token` returns that field's
value as the token, regardless of other fields; if the field is absent,
`get_token` fails with a `KeycloakError` whose message is exactly
`Could not obtain access token from <endpoint>`, with no cause suffix. -/
theorem spec_C1 (p : ModuleParams) (fields : List (String × JsonValue))
    (h : schemeOk p.auth_keycloak_url = true) :
    (∀ v, fields.lookup "access_token" = some v →
        (get_token p (fun _ => NetOutcome.json (JsonValue.obj fields))).fst =
          GetTokenResult.ok v) ∧
    (fields.lookup "access_token" = none →
        (get_token p (fun _ => NetOutcome.json (JsonValue.obj fields))).fst =
          GetTokenResult.keycloakError
            ("Could not obtain access token from " ++ authUrl p)) := by
  constructor
  · intro v hv
    simp [get_token, h, hv]
  · intro hv
    simp [get_token, h, hv]

/-- C1 witness: a response carrying `access_token` `abc123` next to other
fields yields the token `abc123`. -/
theorem spec_C1_witness :
    (get_token exampleParams (fun _ => NetOutcome.json (JsonValue.obj
        [("token_type", JsonValue.str "Bearer"),
         ("access_token", JsonValue.str "abc123")]))).fst =
      GetTokenResult.ok (JsonValue.str "abc123") :=
  (spec_C1 exampleParams
    [("token_type", JsonValue.str "Bearer"),
     ("access_token", JsonValue.str "abc123")] (by decide)).1
    (JsonValue.str "abc123") rfl

/-- C2: for every configuration whose base URL fails the scheme check,
`get_token` fails with exactly the bad-scheme message and issues no
request at all. -/
theorem spec_C2 (p : ModuleParams) (net : Request → NetOutcome)
    (h : schemeOk p.auth_keycloak_url = false) :
    get_token p net =
      (GetTokenResult.keycloakError
        ("auth_url '" ++ p.auth_keycloak_url ++
          "' should either start with 'http' or 'https'."), []) := by
  simp [get_token, h]

/-- C2 witness: an `ftp` URL is rejected before any request is issued. -/
theorem spec_C2_witness :
    get_token ftpParams (fun _ => NetOutcome.json JsonValue.null) =
      (GetTokenResult.keycloakError
        ("auth_url 'ftp://auth.example.com' should either start with "
          ++ "'http' or 'https'."), []) :=
  spec_C2 ftpParams (fun _ => NetOutcome.json JsonValue.null) (by decide)

/-- C3: the payload always carries `grant_type=password`, and each of
`client_id`, `username`, `password` occurs in it with value `v` exactly
when the configured value is `some v`; in particular an empty-string value
is kept, and only an absent value is omitted. -/
theorem spec_C3 (p : ModuleParams) :
    ("grant_type", "password") ∈ payload p ∧
    (∀ v, ("client_id", v) ∈ payload p ↔ p.auth_client_id = some v) ∧
    (∀ v, ("username", v) ∈ payload p ↔ p.auth_username = some v) ∧
    (∀ v, ("password", v) ∈ payload p ↔ p.auth_password = some v) := by
  obtain ⟨url, cid, realm, un, pw, vc, ct, ag⟩ := p
  cases cid <;> cases un <;> cases pw <;>
    simp [payload, temp_payload, eq_comm]

/-- C3 witness: with an empty-string password configured, the payload
keeps `grant_type=password` and the empty `password` item. -/
theorem spec_C3_witness :
    ("grant_type", "password") ∈
      payload { exampleParams with auth_password := some "" } ∧
    (("password", "") ∈ payload { exampleParams with auth_password := some "" } ↔
      ({ exampleParams with auth_password := some "" } :
        ModuleParams).auth_password = some "") :=
  ⟨(spec_C3 { exampleParams with auth_password := some "" }).1,
   (spec_C3 { exampleParams with auth_password := some "" }).2.2.2 ""⟩

/-- C4: the token endpoint is the verbatim interpolation of the base URL
and the realm into `<base_url>/realms/<realm>/protocol/openid-connect/token`. -/
theorem spec_C4 (p : ModuleParams) (r : String) (h : p.auth_realm = some r) :
    authUrl p = p.auth_keycloak_url ++ "/realms/" ++ r
      ++ "/protocol/openid-connect/token" := by
  rw [authUrl_eq, h]
  rfl

/-- C4 witness: base URL `https://auth.example.com` and realm `master`
produce exactly the documented endpoint string. -/
theorem spec_C4_witness :
    authUrl exampleParams =
      "https://auth.example.com/realms/master/protocol/openid-connect/token" := by
  rw [spec_C4 exampleParams "master" rfl]
  rfl

/-- C5: a body that `json.loads` rejects yields a `KeycloakError` whose
message is exactly the invalid-JSON template around the endpoint and the
parser's error text. -/
theorem spec_C5 (p : ModuleParams) (e : String)
    (h : schemeOk p.auth_keycloak_url = true) :
    (get_token p (fun _ => NetOutcome.valueError e)).fst =
      GetTokenResult.keycloakError
        ("API returned invalid JSON when trying to obtain access token from "
          ++ authUrl p ++ ": " ++ e) := by
  simp [get_token, h]

/-- C5 witness: the invalid-JSON failure at the example configuration. -/
theorem spec_C5_witness :
    (get_token exampleParams
        (fun _ => NetOutcome.valueError "Expecting value: line 1 column 1 (char 0)")).fst =
      GetTokenResult.keycloakError
        ("API returned invalid JSON when trying to obtain access token from "
          ++ authUrl exampleParams ++ ": Expecting value: line 1 column 1 (char 0)") :=
  spec_C5 exampleParams "Expecting value: line 1 column 1 (char 0)" (by decide)

/-- C6: any non-`ValueError` failure of the single `open_url` call yields a
`KeycloakError` with exactly the transport-failure message, no token is
returned, and exactly one request was issued. -/
theorem spec_C6 (p : ModuleParams) (e : String)
    (h : schemeOk p.auth_keycloak_url = true) :
    (get_token p (fun _ => NetOutcome.otherError e)).fst =
      GetTokenResult.keycloakError
        ("Could not obtain access token from " ++ authUrl p ++ ": " ++ e) ∧
    (∀ t, (get_token p (fun _ => NetOutcome.otherError e)).fst ≠
        GetTokenResult.ok t) ∧
    (get_token p (fun _ => NetOutcome.otherError e)).snd.length = 1 := by
  refine ⟨by simp [get_token, h], ?_, by simp [get_token, h]⟩
  intro t
  simp [get_token, h]

/-- C6 witness: a timeout at the example configuration produces the
transport-failure message from a single issued request. -/
theorem spec_C6_witness :
    (get_token exampleParams (fun _ => NetOutcome.otherError "timed out")).fst =
      GetTokenResult.keycloakError
        ("Could not obtain access token from " ++ authUrl exampleParams
          ++ ": timed out") ∧
    (get_token exampleParams (fun _ => NetOutcome.otherError "timed out")).snd.length = 1 :=
  ⟨(spec_C6 exampleParams "timed out" (by decide)).1,
   (spec_C6 exampleParams "timed out" (by decide)).2.2⟩

/-- C7 counterexample: with `auth_realm` unset, the realm placeholder is
interpolated as the four characters `None` (Python's string form of the
unset value), not as an empty string: the endpoint is not the one obtained
by interpolating an empty realm. -/
theorem spec_C7_counterexample :
    authUrl noRealmParams =
      "https://auth.example.com/realms/None/protocol/openid-connect/token" ∧
    authUrl noRealmParams ≠
      "https://auth.example.com/realms//protocol/openid-connect/token" := by
  constructor <;> decide

/-- C7 amended: when `auth_realm` is absent, the realm placeholder is
interpolated as the string `None`, producing a malformed endpoint, and
this endpoint is used for the single issued request rather than being
rejected. -/
theorem spec_C7 (p : ModuleParams) (net : Request → NetOutcome)
    (h1 : p.auth_realm = none) (h2 : schemeOk p.auth_keycloak_url = true) :
    authUrl p = p.auth_keycloak_url
      ++ "/realms/None/protocol/openid-connect/token" ∧
    (get_token p net).snd.map Request.url = [authUrl p] := by
  constructor
  · rw [authUrl_eq, h1]
    obtain ⟨ud⟩ := p.auth_keycloak_url
    simp [pyStrOfOpt, String.ext_iff, String.append, List.append_assoc]
  · simp [get_token, h2]

/-- C7 witness: the request issued for the realm-less example configuration
carries the malformed `None` endpoint. -/
theorem spec_C7_witness :
    authUrl noRealmParams = "https://auth.example.com"
      ++ "/realms/None/protocol/openid-connect/token" ∧
    (get_token noRealmParams (fun _ => NetOutcome.otherError "refused")).snd.map
        Request.url = [authUrl noRealmParams] :=
  spec_C7 noRealmParams (fun _ => NetOutcome.otherError "refused") rfl (by decide)

/-- C8: with `auth_username` and `auth_password` given but `auth_client_id`
absent from the raw arguments, the argument-spec default `admin-cli` is
applied before the `None`-filtering, so the payload carries `grant_type`,
`client_id=admin-cli`, `username` and `password`. -/
theorem spec_C8 (raw : RawParams) (un pw : String)
    (hc : raw.auth_client_id = none)
    (hu : raw.auth_username = some un)
    (hp : raw.auth_password = some pw) :
    payload (applyArgumentSpec raw) =
      [("grant_type", "password"), ("client_id", "admin-cli"),
       ("username", un), ("password", pw)] := by
  simp [payload, temp_payload, applyArgumentSpec, hc, hu, hp]

/-- C8 witness: concrete raw arguments with no client id produce the
defaulted payload. -/
theorem spec_C8_witness :
    payload (applyArgumentSpec
      { auth_keycloak_url := "https://auth.example.com"
        auth_client_id := none
        auth_realm := some "master"
        auth_username := some "admin"
        auth_password := some "secret"
        validate_certs := none
        connection_timeout := none
        http_agent := none }) =
      [("grant_type", "password"), ("client_id", "admin-cli"),
       ("username", "admin"), ("password", "secret")] :=
  spec_C8 _ "admin" "secret" rfl rfl rfl

/-- C9: failure messages are built only from the endpoint and the error
detail: two runs that differ only in the password, given the same network
outcome, raise identical messages; and two token-less JSON responses with
different contents raise identical messages, so no password or token value
reaches a message. -/
theorem spec_C9 (p : ModuleParams) (pw1 pw2 : Option String) (o : NetOutcome)
    (f1 f2 : List (String × JsonValue))
    (h1 : f1.lookup "access_token" = none)
    (h2 : f2.lookup "access_token" = none) :
    errorMessage (get_token { p with auth_password := pw1 } (fun _ => o)).fst =
      errorMessage (get_token { p with auth_password := pw2 } (fun _ => o)).fst ∧
    errorMessage (get_token p (fun _ => NetOutcome.json (JsonValue.obj f1))).fst =
      errorMessage (get_token p (fun _ => NetOutcome.json (JsonValue.obj f2))).fst := by
  constructor
  · cases hs : schemeOk p.auth_keycloak_url
    · simp [get_token, hs]
    · cases o with
      | valueError e => simp [get_token, hs, authUrl]
      | otherError e => simp [get_token, hs, authUrl]
      | json v =>
          cases v with
          | obj fields =>
              cases hl : fields.lookup "access_token" <;>
                simp [get_token, hs, hl, authUrl]
          | _ => simp [get_token, hs]
  · cases hs : schemeOk p.auth_keycloak_url <;>
      simp [get_token, hs, h1, h2]

/-- C9 witness: the transport-failure messages for two different passwords
coincide, as do the missing-token messages for two different token-less
bodies. -/
theorem spec_C9_witness :
    (errorMessage (get_token { exampleParams with auth_password := some "pw-one" }
        (fun _ => NetOutcome.otherError "timed out")).fst =
      errorMessage (get_token { exampleParams with auth_password := some "pw-two" }
        (fun _ => NetOutcome.otherError "timed out")).fst) ∧
    (errorMessage (get_token exampleParams
        (fun _ => NetOutcome.json (JsonValue.obj [("error", JsonValue.str "invalid_grant")]))).fst =
      errorMessage (get_token exampleParams
        (fun _ => NetOutcome.json (JsonValue.obj []))).fst) :=
  spec_C9 exampleParams (some "pw-one") (some "pw-two")
    (NetOutcome.otherError "timed out")
    [("error", JsonValue.str "invalid_grant")] [] rfl rfl

/-- C10: the scheme check is equivalent to testing the four-character
prefix `http` on the lowercased URL (the `https` alternative is subsumed
and no `://` is required), so strings such as `httpfoo://host` and
`httpserver` pass the check, and any configuration whose lowercased URL
starts with `http` leads to a network request being attempted. -/
theorem spec_C10 :
    (∀ s : String, schemeOk s = pyStartsWith "http" (pyLower s)) ∧
    schemeOk "httpfoo://host" = true ∧
    schemeOk "httpserver" = true ∧
    (∀ (p : ModuleParams) (net : Request → NetOutcome),
        pyStartsWith "http" (pyLower p.auth_keycloak_url) = true →
        (get_token p net).snd.length = 1) := by
  refine ⟨?_, by decide, by decide, ?_⟩
  · intro s
    unfold schemeOk
    cases hh : pyStartsWith "https" (pyLower s)
    · simp
    · simp [pyStartsWith_https_imp_http (pyLower s) hh]
  · intro p net h
    have hs : schemeOk p.auth_keycloak_url = true := by
      unfold schemeOk
      simp [h]
    simp [get_token, hs]

/-- C10 witness: the `httpfoo://host` configuration passes the scheme check
and one request is issued. -/
theorem spec_C10_witness :
    (get_token httpfooParams
        (fun _ => NetOutcome.otherError "connection refused")).snd.length = 1 :=
  spec_C10.2.2.2 httpfooParams
    (fun _ => NetOutcome.otherError "connection refused") (by decide)

end KeycloakGetToken
